import Mathlib

/-!
Verification of the open-event recording core of the `tracking-pixel`
repository (src/app.js): the pixel response, the tracking-record update
issued by `Email.findOneAndUpdate`, the real-IP resolution, the
timeout race around the update, and the cached-connection manager
`connectToDatabase`.  All definitions are shallow embeddings of the
JavaScript in src/app.js; machine timestamps and durations are modelled
as natural numbers of milliseconds.
-/

namespace TrackingPixel

/-! ### Base64 decoding (Node `Buffer.from(str, 'base64')`) -/

/-- Value of one base64 alphabet character, `none` for non-alphabet input
(Node's decoder skips such characters). -/
def base64Val (c : Char) : Option Nat :=
  if 'A' ≤ c ∧ c ≤ 'Z' then some (c.toNat - 65)
  else if 'a' ≤ c ∧ c ≤ 'z' then some (c.toNat - 97 + 26)
  else if '0' ≤ c ∧ c ≤ '9' then some (c.toNat - 48 + 52)
  else if c = '+' then some 62
  else if c = '/' then some 63
  else none

/-- Turn a list of 6-bit values into bytes, 4 sextets to 3 bytes, with
Node's forgiving handling of a trailing partial group. -/
def sextetsToBytes : List Nat → List Nat
  | a :: b :: c :: d :: rest =>
      (a * 4 + b / 16) :: ((b % 16) * 16 + c / 4) :: ((c % 4) * 64 + d) :: sextetsToBytes rest
  | [a, b, c] => [a * 4 + b / 16, (b % 16) * 16 + c / 4]
  | [a, b] => [a * 4 + b / 16]
  | _ => []

/-- Base64 decode of a string into a byte list, as `Buffer.from(s, 'base64')`. -/
def base64Decode (s : String) : List Nat :=
  sextetsToBytes (s.data.filterMap base64Val)

/-! ### The pixel response (src/app.js lines 151-158) -/

/-- The base64 literal of the single-pixel GIF in the source. -/
def pixelBase64 : String :=
  "R0lGODlhAQABAIAAAAAAAP///yH5BAEAAAAALAAAAAABAAEAAAIBRAA7"

/-- The bytes actually written by `res.end(Buffer.from(pixelBase64, 'base64'))`. -/
def pixelBody : List Nat := base64Decode pixelBase64

/-- An HTTP response as the handler produces it: a status code, the header
list passed to `res.writeHead`, and the body bytes passed to `res.end`. -/
structure HttpResponse where
  status : Nat
  headers : List (String × String)
  body : List Nat
  deriving Repr, DecidableEq

/-- The response written unconditionally at the top of the
`/icon/:trackingId` handler. -/
def pixelResponse : HttpResponse :=
  { status := 200
    headers :=
      [("Content-Type", "image/gif"),
       ("Cache-Control", "no-cache, no-store, must-revalidate"),
       ("Pragma", "no-cache"),
       ("Expires", "0"),
       ("Content-Length", "43")]
    body := pixelBody }

/-! ### The tracking record (the `emailSchema` document, src/app.js lines 78-120) -/

/-- The `status` enum of the schema. -/
inductive EmailStatus
  | sent
  | bounced
  | opened
  deriving Repr, DecidableEq

/-- One entry of `responseDetails.openHistory`. -/
structure OpenEvent where
  timestamp : Nat
  userAgent : String
  ip : String
  deriving Repr, DecidableEq

/-- A tracking record: the fields of the `emailSchema` document that the
open-event recorder reads or writes.  `lastOpened`, `respUserAgent` and
`respIp` embed `responseDetails.lastOpened/userAgent/ip`; `openCount`
embeds `metadata.openCount`; `openHistory` embeds
`responseDetails.openHistory`. -/
structure TrackingRecord where
  trackingId : String
  messageId : String
  status : EmailStatus
  lastOpened : Option Nat
  respUserAgent : Option String
  respIp : Option String
  openHistory : List OpenEvent
  openCount : Nat
  deriving Repr, DecidableEq

/-- The request context captured inside the update closure: `timestamp`,
`userAgent` and `ip` of src/app.js lines 169-171. -/
structure RequestContext where
  timestamp : Nat
  userAgent : String
  ip : String
  deriving Repr, DecidableEq

/-- The update document of `Email.findOneAndUpdate` (src/app.js lines
175-190) applied to one matching record: `$set` of status and the three
`responseDetails` fields, `$push` of one history entry, `$inc` of
`metadata.openCount` by 1, all in one document-level operation. -/
def applyOpenUpdate (ctx : RequestContext) (r : TrackingRecord) : TrackingRecord :=
  { r with
    status := EmailStatus.opened
    lastOpened := some ctx.timestamp
    respUserAgent := some ctx.userAgent
    respIp := some ctx.ip
    openHistory := r.openHistory ++ [⟨ctx.timestamp, ctx.userAgent, ctx.ip⟩]
    openCount := r.openCount + 1 }

/-- The document store: the collection of tracking records. -/
abbrev Store := List TrackingRecord

/-- Lookup of the record matching a trackingId (the filter on
`trackingId` of `findOneAndUpdate`; the schema declares the key unique,
so at most one document matches). -/
def findRec (tid : String) : Store → Option TrackingRecord
  | [] => none
  | r :: rest => if r.trackingId = tid then some r else findRec tid rest

/-- The `Email.findOneAndUpdate` call with `new: true, upsert: false`: atomically
update the matching document and return the updated document, or return
`none` and leave the store unchanged when no document matches. -/
def findOneAndUpdate (tid : String) (ctx : RequestContext) :
    Store → Option TrackingRecord × Store
  | [] => (none, [])
  | r :: rest =>
      if r.trackingId = tid then
        (some (applyOpenUpdate ctx r), applyOpenUpdate ctx r :: rest)
      else
        ((findOneAndUpdate tid ctx rest).1, r :: (findOneAndUpdate tid ctx rest).2)

/-- N successive recorded opens of the same record. -/
def iterOpens (ctx : RequestContext) : Nat → TrackingRecord → TrackingRecord
  | 0, r => r
  | n + 1, r => applyOpenUpdate ctx (iterOpens ctx n r)

/-- The record-level invariant of §3 of the spec: `openCount` equals the
length of `openHistory`. -/
def CountInv (r : TrackingRecord) : Prop :=
  r.openCount = r.openHistory.length

/-- The invariant over every record of the store. -/
def StoreCountInv (s : Store) : Prop :=
  ∀ r ∈ s, CountInv r

/-! ### Request context capture (src/app.js lines 169-171) -/

/-- Case-exact lookup of a header value (Node lower-cases header names on
receipt; the code reads lower-case keys). -/
def lookupHeader (headers : List (String × String)) (k : String) : Option String :=
  (headers.find? (fun p => p.1 = k)).map (fun p => p.2)

/-- JavaScript `a || b` for a possibly-absent string `a`: an absent or
empty (falsy) string falls through to `b`. -/
def jsStringOr (a : Option String) (b : String) : String :=
  match a with
  | some s => if s = "" then b else s
  | none => b

/-- An incoming request as the handler sees it: the `:trackingId` route
parameter, the header map, and `req.ip` (the Express-resolved socket peer
address, absent when the socket has none). -/
structure Request where
  trackingId : String
  headers : List (String × String)
  reqIp : Option String
  deriving Repr, DecidableEq

/-- The ip captured at src/app.js line 170:
`req.ip || req.headers['x-forwarded-for'] || 'unknown'`. -/
def resolveIp (reqIp : Option String) (headers : List (String × String)) : String :=
  jsStringOr reqIp (jsStringOr (lookupHeader headers "x-forwarded-for") "unknown")

/-- The userAgent captured at src/app.js line 169:
`req.headers['user-agent'] || 'unknown'`. -/
def resolveUserAgent (headers : List (String × String)) : String :=
  jsStringOr (lookupHeader headers "user-agent") "unknown"

/-- The context captured inside the update closure for a request arriving
at time `now`. -/
def captureContext (req : Request) (now : Nat) : RequestContext :=
  { timestamp := now
    userAgent := resolveUserAgent req.headers
    ip := resolveIp req.reqIp req.headers }

/-! ### The recording path and its timeout race (src/app.js lines 146-227) -/

/-- The `setTimeout` delay of the wall-clock race (src/app.js line 219). -/
def raceTimeoutMs : Nat := 5000

/-- The `maxTimeMS` server-side execution budget passed to
`findOneAndUpdate` (src/app.js line 193). -/
def updateMaxTimeMS : Nat := 5000

/-- The fixed options object of the `findOneAndUpdate` call
(src/app.js lines 191-195). -/
structure FindOneAndUpdateOptions where
  returnNew : Bool
  maxTimeMS : Nat
  upsert : Bool
  deriving Repr, DecidableEq

/-- Literally `new: true, maxTimeMS: 5000, upsert: false`. -/
def openUpdateOptions : FindOneAndUpdateOptions :=
  { returnNew := true, maxTimeMS := 5000, upsert := false }

/-- The nondeterministic outside world of one request: whether
`connectToDatabase` succeeds, how long it takes, how long the store takes
to execute the update, and the arrival time. -/
structure Env where
  connOk : Bool
  connDurationMs : Nat
  updateDurationMs : Nat
  now : Nat
  deriving Repr, DecidableEq

/-- How the body of `updatePromise` settles (src/app.js lines 165-213):
every path is caught inside the closure, so the closure always resolves. -/
inductive RecordOutcome
  | connectionError
  | serverTimeout
  | miss
  | success (updated : TrackingRecord)
  deriving Repr, DecidableEq

/-- One run of the `updatePromise` closure: outcome, resulting store, and
the wall-clock milliseconds until the closure settles.  A connection
failure settles after the connection attempt; a store execution longer
than `maxTimeMS` is aborted server-side at the budget and surfaces as a
caught error; otherwise `findOneAndUpdate` runs atomically. -/
def updatePromiseRun (env : Env) (tid : String) (ctx : RequestContext) (s : Store) :
    RecordOutcome × Store × Nat :=
  if env.connOk = false then
    (RecordOutcome.connectionError, s, env.connDurationMs)
  else if updateMaxTimeMS < env.updateDurationMs then
    (RecordOutcome.serverTimeout, s, env.connDurationMs + updateMaxTimeMS)
  else
    match findOneAndUpdate tid ctx s with
    | (none, s') => (RecordOutcome.miss, s', env.connDurationMs + env.updateDurationMs)
    | (some r, s') => (RecordOutcome.success r, s', env.connDurationMs + env.updateDurationMs)

/-- What the handler's `Promise.race([updatePromise, timeoutPromise])`
reports: `none` when no recording was attempted (falsy trackingId),
otherwise the first of the update result and the 5000 ms timer. -/
inductive RaceReport
  | notAttempted
  | timedOut
  | settled (o : RecordOutcome)
  deriving Repr, DecidableEq

/-- Observable steps of the handler, in program order. -/
inductive HandlerEvent
  | respond (r : HttpResponse)
  | acquireConnection
  | storeUpdate
  deriving Repr, DecidableEq

/-- Everything one execution of the `/icon/:trackingId` handler produces:
the HTTP response, the final store, what the race reported, and the
ordered event trace. -/
structure HandlerResult where
  response : HttpResponse
  store : Store
  report : RaceReport
  events : List HandlerEvent
  deriving Repr, DecidableEq

/-- The `/icon/:trackingId` handler (src/app.js lines 146-227): write the
pixel response first; stop if the trackingId is falsy; otherwise run the
update closure and race it against the 5000 ms timer.  The race only
selects what is reported: the closure's store effect stands either way,
and every failure is caught, never altering the already-written
response. -/
def iconHandler (env : Env) (req : Request) (s : Store) : HandlerResult :=
  let respondEvent := HandlerEvent.respond pixelResponse
  if req.trackingId = "" then
    { response := pixelResponse, store := s
      report := RaceReport.notAttempted, events := [respondEvent] }
  else
    let run := updatePromiseRun env req.trackingId (captureContext req env.now) s
    let report :=
      if raceTimeoutMs < run.2.2 then RaceReport.timedOut
      else RaceReport.settled run.1
    let tail :=
      if env.connOk then [HandlerEvent.acquireConnection, HandlerEvent.storeUpdate]
      else [HandlerEvent.acquireConnection]
    { response := pixelResponse, store := run.2.1, report := report
      events := respondEvent :: tail }

/-! ### The connection manager `connectToDatabase` (src/app.js lines 25-76) -/

/-- The options object passed to `mongoose.connect` (src/app.js
lines 47-54). -/
structure ConnectOptions where
  maxPoolSize : Nat
  serverSelectionTimeoutMS : Nat
  socketTimeoutMS : Nat
  connectTimeoutMS : Nat
  keepAlive : Bool
  keepAliveInitialDelay : Nat
  deriving Repr, DecidableEq

/-- The literal options of the source. -/
def mongooseConnectOptions : ConnectOptions :=
  { maxPoolSize := 1
    serverSelectionTimeoutMS := 5000
    socketTimeoutMS := 30000
    connectTimeoutMS := 10000
    keepAlive := true
    keepAliveInitialDelay := 300000 }

/-- The `setTimeout` polling delay of waiting acquirers (src/app.js
line 35). -/
def pollIntervalMs : Nat := 100

/-- The module-level mutable state of the manager: `cachedDb` (a handle
modelled as a number), the `isConnecting` guard flag, and
`mongoose.connection.readyState` (1 = connected). -/
structure ConnState where
  cachedDb : Option Nat
  isConnecting : Bool
  readyState : Nat
  deriving Repr, DecidableEq

/-- The outside world of one acquisition: whether `mongoose.connect`
succeeds and the handle it yields. -/
structure ConnEnv where
  connectOk : Bool
  newHandle : Nat
  deriving Repr, DecidableEq

/-- How one call to `connectToDatabase` ends for its caller. -/
inductive AcquireResult
  | ok (handle : Nat)
  | err
  | starved
  deriving Repr, DecidableEq

/-- One pass through the body of `connectToDatabase`: the cached-handle
fast path returns immediately; a pass that finds `isConnecting` set
sleeps 100 ms and retries from the top (`wait` continues there);
otherwise the pass sets the guard flag, disconnects any stale handle,
attempts `mongoose.connect`, and on either outcome clears the flag
before returning or throwing. -/
def connectStep (env : ConnEnv) (st : ConnState)
    (wait : Unit → AcquireResult × ConnState) : AcquireResult × ConnState :=
  match st.cachedDb, decide (st.readyState = 1) with
  | some h, true => (AcquireResult.ok h, st)
  | _, _ =>
    if st.isConnecting then wait ()
    else if env.connectOk then
      (AcquireResult.ok env.newHandle,
       { cachedDb := some env.newHandle, isConnecting := false, readyState := 1 })
    else
      (AcquireResult.err,
       { cachedDb := none, isConnecting := false, readyState := 0 })

/-- One call to `connectToDatabase`, single-caller view.  `fuel` bounds
the 100 ms wait-and-retry loop: with no other caller the state never
changes, so exhaustion is reported as `starved`. -/
def connectToDatabase : Nat → ConnEnv → ConnState → AcquireResult × ConnState
  | 0, env, st => connectStep env st (fun _ => (AcquireResult.starved, st))
  | fuel + 1, env, st => connectStep env st (fun _ => connectToDatabase fuel env st)

/-! ### Concurrent acquirers (src/app.js lines 25-76 under the event loop)

JavaScript interleaves the handler only at `await` points, so one call to
`connectToDatabase` decomposes into atomic segments: the entry segment
(cached check, guard check, and — atomically with the guard check —
setting the flag and starting `mongoose.connect`), the 100 ms timer
wake-up of a waiting caller, and the completion of the one in-flight
`mongoose.connect`. -/

/-- Where one concurrent caller of `connectToDatabase` stands. -/
inductive ProcPhase
  | start
  | waiting
  | connecting
  | done (ok : Bool)
  deriving Repr, DecidableEq

/-- Shared state plus the phase of every in-flight caller.  `cached` is
`cachedDb && mongoose.connection.readyState === 1` collapsed to one
healthy-cache bit; `flag` is `isConnecting`. -/
structure Sys where
  procs : List ProcPhase
  cached : Bool
  flag : Bool
  deriving Repr, DecidableEq

/-- Replace the phase of caller `i`. -/
def setProc (s : Sys) (i : Nat) (p : ProcPhase) : Sys :=
  { s with procs := s.procs.set i p }

/-- One event-loop step of the system of concurrent acquirers. -/
inductive SysStep : Sys → Sys → Prop
  | enterCached (s : Sys) (i : Nat) :
      s.procs[i]? = some ProcPhase.start → s.cached = true →
      SysStep s (setProc s i (ProcPhase.done true))
  | enterWait (s : Sys) (i : Nat) :
      s.procs[i]? = some ProcPhase.start → s.cached = false → s.flag = true →
      SysStep s (setProc s i ProcPhase.waiting)
  | enterConnect (s : Sys) (i : Nat) :
      s.procs[i]? = some ProcPhase.start → s.cached = false → s.flag = false →
      SysStep s { setProc s i ProcPhase.connecting with flag := true }
  | wake (s : Sys) (i : Nat) :
      s.procs[i]? = some ProcPhase.waiting →
      SysStep s (setProc s i ProcPhase.start)
  | resolve (s : Sys) (i : Nat) (ok : Bool) :
      s.procs[i]? = some ProcPhase.connecting →
      SysStep s { setProc s i (ProcPhase.done ok) with flag := false, cached := ok }

/-- The guard invariant: when the flag is down no caller is inside
`mongoose.connect`, and never are two callers inside it at once. -/
def GuardInv (s : Sys) : Prop :=
  (s.flag = false → ∀ i : Nat, s.procs[i]? ≠ some ProcPhase.connecting) ∧
  (∀ i j : Nat, s.procs[i]? = some ProcPhase.connecting →
    s.procs[j]? = some ProcPhase.connecting → i = j)

/-- While the flag is up some caller is inside `mongoose.connect`: the flag
cannot stay up after every in-flight attempt has resolved. -/
def FlagLiveInv (s : Sys) : Prop :=
  s.flag = true → ∃ i : Nat, s.procs[i]? = some ProcPhase.connecting

/-- States reachable from `s0` by event-loop steps. -/
def SysReachable (s0 s : Sys) : Prop :=
  Relation.ReflTransGen SysStep s0 s

/-- A cold start: every caller at entry, no cache, flag down. -/
def coldStart (n : Nat) : Sys :=
  { procs := List.replicate n ProcPhase.start, cached := false, flag := false }

/-! ## Helper lemmas -/

theorem applyOpenUpdate_trackingId (ctx : RequestContext) (r : TrackingRecord) :
    (applyOpenUpdate ctx r).trackingId = r.trackingId := rfl

theorem findOneAndUpdate_fst_of_findRec (tid : String) (ctx : RequestContext) :
    ∀ (s : Store) (r : TrackingRecord), findRec tid s = some r →
      (findOneAndUpdate tid ctx s).1 = some (applyOpenUpdate ctx r) := by
  intro s
  induction s with
  | nil => intro r h; simp [findRec] at h
  | cons hd tl ih =>
      intro r h
      by_cases hc : hd.trackingId = tid
      · simp [findRec, hc] at h
        subst h
        simp [findOneAndUpdate, hc]
      · simp [findRec, hc] at h
        simp [findOneAndUpdate, hc, ih r h]

theorem findOneAndUpdate_of_findRec_none (tid : String) (ctx : RequestContext) :
    ∀ s : Store, findRec tid s = none → findOneAndUpdate tid ctx s = (none, s) := by
  intro s
  induction s with
  | nil => intro _; rfl
  | cons hd tl ih =>
      intro h
      by_cases hc : hd.trackingId = tid
      · simp [findRec, hc] at h
      · simp [findRec, hc] at h
        simp [findOneAndUpdate, hc, ih h]

theorem iterOpens_openCount (ctx : RequestContext) :
    ∀ (n : Nat) (r : TrackingRecord),
      (iterOpens ctx n r).openCount = r.openCount + n := by
  intro n
  induction n with
  | zero => intro r; rfl
  | succ n ih =>
      intro r
      simp [iterOpens, applyOpenUpdate, ih r]
      omega

theorem iterOpens_openHistory_length (ctx : RequestContext) :
    ∀ (n : Nat) (r : TrackingRecord),
      (iterOpens ctx n r).openHistory.length = r.openHistory.length + n := by
  intro n
  induction n with
  | zero => intro r; rfl
  | succ n ih =>
      intro r
      simp [iterOpens, applyOpenUpdate, ih r]
      omega

theorem countInv_applyOpenUpdate (ctx : RequestContext) (r : TrackingRecord)
    (h : CountInv r) : CountInv (applyOpenUpdate ctx r) := by
  simp [CountInv, applyOpenUpdate] at h ⊢
  omega

theorem storeCountInv_findOneAndUpdate (tid : String) (ctx : RequestContext) :
    ∀ s : Store, StoreCountInv s → StoreCountInv (findOneAndUpdate tid ctx s).2 := by
  intro s
  induction s with
  | nil => intro h; exact h
  | cons hd tl ih =>
      intro h
      have hhd : CountInv hd := h hd (by simp)
      have htl : StoreCountInv tl := fun r hr => h r (by simp [hr])
      by_cases hc : hd.trackingId = tid
      · simp only [findOneAndUpdate, hc, if_pos rfl]
        intro r hr
        rcases List.mem_cons.mp hr with h1 | h2
        · exact h1 ▸ countInv_applyOpenUpdate ctx hd hhd
        · exact htl r h2
      · simp only [findOneAndUpdate, if_neg hc]
        intro r hr
        rcases List.mem_cons.mp hr with h1 | h2
        · exact h1 ▸ hhd
        · exact ih htl r h2

theorem findRec_mem (tid : String) :
    ∀ (s : Store) (r : TrackingRecord), findRec tid s = some r → r ∈ s := by
  intro s
  induction s with
  | nil => intro r h; simp [findRec] at h
  | cons hd tl ih =>
      intro r h
      by_cases hc : hd.trackingId = tid
      · simp [findRec, hc] at h
        simp [h]
      · simp [findRec, hc] at h
        exact List.mem_cons_of_mem hd (ih r h)

/-! ## Claims -/

/-- Claim C2: one successful call to the open-recording path sets status
to opened, sets lastOpened/userAgent/ip to the captured context,
increases openCount by exactly 1, and appends exactly one history entry
with the context's fields; N recorded opens of a fresh record yield
openCount = N and N history entries. -/
theorem c2_open_recording_effects :
    (∀ (ctx : RequestContext) (r : TrackingRecord),
      (applyOpenUpdate ctx r).status = EmailStatus.opened ∧
      (applyOpenUpdate ctx r).lastOpened = some ctx.timestamp ∧
      (applyOpenUpdate ctx r).respUserAgent = some ctx.userAgent ∧
      (applyOpenUpdate ctx r).respIp = some ctx.ip ∧
      (applyOpenUpdate ctx r).openCount = r.openCount + 1 ∧
      (applyOpenUpdate ctx r).openHistory =
        r.openHistory ++ [⟨ctx.timestamp, ctx.userAgent, ctx.ip⟩]) ∧
    (∀ (tid : String) (ctx : RequestContext) (s : Store) (r : TrackingRecord),
      findRec tid s = some r →
      (findOneAndUpdate tid ctx s).1 = some (applyOpenUpdate ctx r)) ∧
    (∀ (ctx : RequestContext) (n : Nat) (r : TrackingRecord),
      r.openCount = 0 → r.openHistory = [] →
      (iterOpens ctx n r).openCount = n ∧
      (iterOpens ctx n r).openHistory.length = n) := by
  refine ⟨fun ctx r => ⟨rfl, rfl, rfl, rfl, rfl, rfl⟩,
    fun tid ctx s r h => findOneAndUpdate_fst_of_findRec tid ctx s r h,
    fun ctx n r h0 hh => ?_⟩
  constructor
  · rw [iterOpens_openCount ctx n r, h0, Nat.zero_add]
  · rw [iterOpens_openHistory_length ctx n r, hh]
    simp

/-- Witness for C2 at a concrete store, record and context. -/
theorem c2_open_recording_effects_witness :
    (findOneAndUpdate "t1" ⟨7, "ua", "ip1"⟩
        [⟨"t1", "m1", EmailStatus.sent, none, none, none, [], 0⟩]).1 =
      some (applyOpenUpdate ⟨7, "ua", "ip1"⟩
        ⟨"t1", "m1", EmailStatus.sent, none, none, none, [], 0⟩) ∧
    (iterOpens ⟨7, "ua", "ip1"⟩ 3
        ⟨"t1", "m1", EmailStatus.sent, none, none, none, [], 0⟩).openCount = 3 :=
  ⟨c2_open_recording_effects.2.1 "t1" ⟨7, "ua", "ip1"⟩
      [⟨"t1", "m1", EmailStatus.sent, none, none, none, [], 0⟩]
      ⟨"t1", "m1", EmailStatus.sent, none, none, none, [], 0⟩ (by decide),
   (c2_open_recording_effects.2.2 ⟨7, "ua", "ip1"⟩ 3
      ⟨"t1", "m1", EmailStatus.sent, none, none, none, [], 0⟩ rfl rfl).1⟩

/-- Claim C3: after every successful open-recording update openCount
equals the length of openHistory; the update is a single document-level
operation on the store, and every operation the core performs preserves
the invariant for every record of the store. -/
theorem c3_openCount_eq_openHistory_length :
    (∀ (ctx : RequestContext) (r : TrackingRecord),
      CountInv r → CountInv (applyOpenUpdate ctx r)) ∧
    (∀ (tid : String) (ctx : RequestContext) (s : Store),
      StoreCountInv s → StoreCountInv (findOneAndUpdate tid ctx s).2) ∧
    (∀ (tid : String) (ctx : RequestContext) (s : Store) (r' : TrackingRecord),
      StoreCountInv s → (findOneAndUpdate tid ctx s).1 = some r' →
      r'.openCount = r'.openHistory.length) := by
  refine ⟨countInv_applyOpenUpdate, storeCountInv_findOneAndUpdate, ?_⟩
  intro tid ctx s r' hinv hfst
  rcases h : findRec tid s with _ | ⟨r⟩
  · rw [findOneAndUpdate_of_findRec_none tid ctx s h] at hfst
    simp at hfst
  · rw [findOneAndUpdate_fst_of_findRec tid ctx s r h] at hfst
    have hr : CountInv r := hinv r (findRec_mem tid s r h)
    have := countInv_applyOpenUpdate ctx r hr
    simp at hfst
    rw [← hfst]
    exact this

/-- Witness for C3 at a concrete store and context. -/
theorem c3_openCount_eq_openHistory_length_witness :
    CountInv (applyOpenUpdate ⟨7, "ua", "ip1"⟩
      ⟨"t1", "m1", EmailStatus.sent, none, none, none, [], 0⟩) ∧
    StoreCountInv (findOneAndUpdate "t1" ⟨7, "ua", "ip1"⟩
      [⟨"t1", "m1", EmailStatus.sent, none, none, none, [], 0⟩]).2 :=
  ⟨c3_openCount_eq_openHistory_length.1 ⟨7, "ua", "ip1"⟩
      ⟨"t1", "m1", EmailStatus.sent, none, none, none, [], 0⟩ rfl,
   c3_openCount_eq_openHistory_length.2.1 "t1" ⟨7, "ua", "ip1"⟩
      [⟨"t1", "m1", EmailStatus.sent, none, none, none, [], 0⟩]
      (by intro r hr; simp at hr; rw [hr]; rfl)⟩

/-- Claim C9: the core's only status write is `opened` — a record with
status sent advances to opened and the core never writes sent or bounced
— and openCount goes up by exactly 1 per recorded open and is never
decremented by any number of recorded opens. -/
theorem c9_status_monotone_count_nondecreasing :
    (∀ (ctx : RequestContext) (r : TrackingRecord),
      (applyOpenUpdate ctx r).status = EmailStatus.opened) ∧
    (∀ (ctx : RequestContext) (r : TrackingRecord),
      r.status = EmailStatus.sent →
      (applyOpenUpdate ctx r).status = EmailStatus.opened) ∧
    (∀ (ctx : RequestContext) (r : TrackingRecord),
      (applyOpenUpdate ctx r).openCount = r.openCount + 1) ∧
    (∀ (ctx : RequestContext) (r : TrackingRecord),
      r.openCount ≤ (applyOpenUpdate ctx r).openCount) ∧
    (∀ (ctx : RequestContext) (n : Nat) (r : TrackingRecord),
      r.openCount ≤ (iterOpens ctx n r).openCount) := by
  refine ⟨fun _ _ => rfl, fun _ _ _ => rfl, fun _ _ => rfl,
    fun _ r => Nat.le_succ r.openCount, fun ctx n r => ?_⟩
  rw [iterOpens_openCount ctx n r]
  exact Nat.le_add_right _ _

/-- Witness for C9 at a concrete record and context. -/
theorem c9_status_monotone_count_nondecreasing_witness :
    (applyOpenUpdate ⟨7, "ua", "ip1"⟩
      ⟨"t1", "m1", EmailStatus.sent, none, none, none, [], 0⟩).status =
      EmailStatus.opened :=
  c9_status_monotone_count_nondecreasing.2.1 ⟨7, "ua", "ip1"⟩
    ⟨"t1", "m1", EmailStatus.sent, none, none, none, [], 0⟩ rfl

/-- Claim C4 counterexample: the code's ip capture does not split a
forwarded-for list — with only the header x-forwarded-for set to the list
"1.2.3.4, 5.6.6.7" the resolved ip is the whole list, not "1.2.3.4" —
and the socket-resolved `req.ip` takes precedence over the header rather
than being a late fallback. -/
theorem c4_ip_resolution_counterexample :
    resolveIp none [("x-forwarded-for", "1.2.3.4, 5.6.6.7")] = "1.2.3.4, 5.6.6.7" ∧
    resolveIp none [("x-forwarded-for", "1.2.3.4, 5.6.6.7")] ≠ "1.2.3.4" ∧
    resolveIp (some "9.9.9.9") [("x-forwarded-for", "1.2.3.4, 5.6.6.7")] = "9.9.9.9" := by
  refine ⟨by decide, by decide, by decide⟩

/-- Claim C4 as amended: the recorded ip is `req.ip` when present and
non-empty, otherwise the raw x-forwarded-for header value taken whole,
otherwise the sentinel "unknown"; no other header takes part. -/
theorem c4_ip_resolution_amended :
    (∀ (ip : String) (headers : List (String × String)),
      ip ≠ "" → resolveIp (some ip) headers = ip) ∧
    (∀ (reqIp : Option String) (headers : List (String × String)) (v : String),
      (reqIp = none ∨ reqIp = some "") →
      lookupHeader headers "x-forwarded-for" = some v → v ≠ "" →
      resolveIp reqIp headers = v) ∧
    (∀ (reqIp : Option String) (headers : List (String × String)),
      (reqIp = none ∨ reqIp = some "") →
      (lookupHeader headers "x-forwarded-for" = none ∨
       lookupHeader headers "x-forwarded-for" = some "") →
      resolveIp reqIp headers = "unknown") := by
  refine ⟨?_, ?_, ?_⟩
  · intro ip headers hip
    simp [resolveIp, jsStringOr, hip]
  · intro reqIp headers v hreq hloo hv
    rcases hreq with h | h <;> subst h <;> simp [resolveIp, jsStringOr, hloo, hv]
  · intro reqIp headers hreq hloo
    rcases hreq with h | h <;> subst h <;>
      rcases hloo with h2 | h2 <;> simp [resolveIp, jsStringOr, h2]

/-- Witness for the amended C4 at concrete requests. -/
theorem c4_ip_resolution_amended_witness :
    resolveIp (some "9.9.9.9") [] = "9.9.9.9" ∧
    resolveIp none [("x-forwarded-for", "1.2.3.4, 5.6.6.7")] = "1.2.3.4, 5.6.6.7" ∧
    resolveIp none [] = "unknown" :=
  ⟨c4_ip_resolution_amended.1 "9.9.9.9" [] (by decide),
   c4_ip_resolution_amended.2.1 none [("x-forwarded-for", "1.2.3.4, 5.6.6.7")]
     "1.2.3.4, 5.6.6.7" (Or.inl rfl) (by decide) (by decide),
   c4_ip_resolution_amended.2.2 none [] (Or.inl rfl) (Or.inl rfl)⟩

/-- Claim C1 (code bug): the handler always writes status 200 with
exactly the five claimed headers as its first action, before any
connection acquisition or store update and independent of trackingId,
headers and store — but the body it writes is the 42-byte decode of the
source's base64 literal, while the Content-Length header it declares
says 43: the body is not the claimed exact 43-byte GIF. -/
theorem c1_pixel_response_content_length_bug :
    (∀ (env : Env) (req : Request) (s : Store),
      (iconHandler env req s).response = pixelResponse ∧
      (iconHandler env req s).events.head? =
        some (HandlerEvent.respond pixelResponse)) ∧
    pixelResponse.status = 200 ∧
    pixelResponse.headers =
      [("Content-Type", "image/gif"),
       ("Cache-Control", "no-cache, no-store, must-revalidate"),
       ("Pragma", "no-cache"),
       ("Expires", "0"),
       ("Content-Length", "43")] ∧
    pixelResponse.body = base64Decode pixelBase64 ∧
    pixelResponse.body.length = 42 ∧
    pixelResponse.body.length ≠ 43 := by
  refine ⟨?_, rfl, rfl, rfl, by decide, by decide⟩
  intro env req s
  unfold iconHandler
  split <;> exact ⟨rfl, rfl⟩

theorem updatePromiseRun_store_of_findRec_none (env : Env) (tid : String)
    (ctx : RequestContext) (s : Store) (h : findRec tid s = none) :
    (updatePromiseRun env tid ctx s).2.1 = s := by
  unfold updatePromiseRun
  split
  · rfl
  · split
    · rfl
    · simp [findOneAndUpdate_of_findRec_none tid ctx s h]

/-- Claim C5: the recording path never reaches the HTTP client — the
response is the pixel whatever happens; a falsy trackingId makes
recording a no-op; an unknown trackingId mutates no record and creates
none (no upsert), and every run of the handler ends in one of the
swallowed reports. -/
theorem c5_recording_failures_swallowed :
    (∀ (env : Env) (req : Request) (s : Store),
      (iconHandler env req s).response = pixelResponse) ∧
    (∀ (env : Env) (req : Request) (s : Store), req.trackingId = "" →
      (iconHandler env req s).store = s ∧
      (iconHandler env req s).report = RaceReport.notAttempted ∧
      (iconHandler env req s).events = [HandlerEvent.respond pixelResponse]) ∧
    (∀ (tid : String) (ctx : RequestContext) (s : Store),
      findRec tid s = none → findOneAndUpdate tid ctx s = (none, s)) ∧
    (∀ (env : Env) (req : Request) (s : Store),
      findRec req.trackingId s = none → (iconHandler env req s).store = s) ∧
    (∀ (env : Env) (req : Request) (s : Store),
      (iconHandler env req s).report = RaceReport.notAttempted ∨
      (iconHandler env req s).report = RaceReport.timedOut ∨
      ∃ o : RecordOutcome, (iconHandler env req s).report = RaceReport.settled o) := by
  refine ⟨?_, ?_, findOneAndUpdate_of_findRec_none, ?_, ?_⟩
  · intro env req s
    unfold iconHandler
    split <;> rfl
  · intro env req s h
    simp [iconHandler, h]
  · intro env req s h
    unfold iconHandler
    split
    · rfl
    · exact updatePromiseRun_store_of_findRec_none env req.trackingId _ s h
  · intro env req s
    unfold iconHandler
    split
    · exact Or.inl rfl
    · right
      by_cases hc : raceTimeoutMs <
          (updatePromiseRun env req.trackingId (captureContext req env.now) s).2.2
      · exact Or.inl (by simp [hc])
      · exact Or.inr
          ⟨(updatePromiseRun env req.trackingId (captureContext req env.now) s).1,
           by simp [hc]⟩

/-- Witness for C5 at a concrete empty-trackingId and unknown-trackingId
request. -/
theorem c5_recording_failures_swallowed_witness :
    (iconHandler ⟨true, 10, 10, 7⟩ ⟨"", [], none⟩ []).store = ([] : Store) ∧
    (iconHandler ⟨true, 10, 10, 7⟩ ⟨"zz", [], none⟩ []).store = ([] : Store) :=
  ⟨(c5_recording_failures_swallowed.2.1 ⟨true, 10, 10, 7⟩ ⟨"", [], none⟩ [] rfl).1,
   c5_recording_failures_swallowed.2.2.2.1 ⟨true, 10, 10, 7⟩ ⟨"zz", [], none⟩ [] rfl⟩

/-- Claim C6: the recording is raced against a 5000 ms wall-clock timer
with a distinct 5000 ms server-side budget on the store operation; the
race reports a timeout exactly when the recording settles after the
timer, and a lost store operation is not retracted — the store keeps the
closure's effect whatever the race reports. -/
theorem c6_timeout_race :
    raceTimeoutMs = 5000 ∧
    updateMaxTimeMS = 5000 ∧
    openUpdateOptions.maxTimeMS = 5000 ∧
    (∀ (env : Env) (req : Request) (s : Store), req.trackingId ≠ "" →
      ((iconHandler env req s).report = RaceReport.timedOut ↔
        raceTimeoutMs <
          (updatePromiseRun env req.trackingId (captureContext req env.now) s).2.2) ∧
      (iconHandler env req s).store =
        (updatePromiseRun env req.trackingId (captureContext req env.now) s).2.1) := by
  refine ⟨rfl, rfl, rfl, ?_⟩
  intro env req s h
  constructor
  · by_cases hc : raceTimeoutMs <
        (updatePromiseRun env req.trackingId (captureContext req env.now) s).2.2
    · simp [iconHandler, h, hc]
    · simp [iconHandler, h, hc]
  · simp [iconHandler, h]

/-- Witness for C6 at a concrete request and environment. -/
theorem c6_timeout_race_witness :
    ((iconHandler ⟨true, 1, 1, 7⟩ ⟨"t1", [], none⟩ []).report = RaceReport.timedOut ↔
      raceTimeoutMs <
        (updatePromiseRun ⟨true, 1, 1, 7⟩ "t1"
          (captureContext ⟨"t1", [], none⟩ 7) []).2.2) ∧
    (iconHandler ⟨true, 1, 1, 7⟩ ⟨"t1", [], none⟩ []).store =
      (updatePromiseRun ⟨true, 1, 1, 7⟩ "t1"
        (captureContext ⟨"t1", [], none⟩ 7) []).2.1 :=
  c6_timeout_race.2.2.2 ⟨true, 1, 1, 7⟩ ⟨"t1", [], none⟩ [] (by decide)

/-! ## Connection manager lemmas -/

theorem connectStep_cached (env : ConnEnv) (st : ConnState)
    (wait : Unit → AcquireResult × ConnState) (h : Nat)
    (h1 : st.cachedDb = some h) (h2 : st.readyState = 1) :
    connectStep env st wait = (AcquireResult.ok h, st) := by
  obtain ⟨cd, ic, rs⟩ := st
  simp only at h1 h2
  subst h1
  subst h2
  rfl

theorem connectStep_attempt (env : ConnEnv) (st : ConnState)
    (wait : Unit → AcquireResult × ConnState)
    (hflag : st.isConnecting = false)
    (hmiss : st.cachedDb = none ∨ st.readyState ≠ 1) :
    connectStep env st wait =
      if env.connectOk then
        (AcquireResult.ok env.newHandle,
         { cachedDb := some env.newHandle, isConnecting := false, readyState := 1 })
      else
        (AcquireResult.err,
         { cachedDb := none, isConnecting := false, readyState := 0 }) := by
  obtain ⟨cd, ic, rs⟩ := st
  simp only at hflag
  subst hflag
  rcases hmiss with h | h
  · simp only at h
    subst h
    unfold connectStep
    simp
  · simp only at h
    have hdec : decide (rs = 1) = false := decide_eq_false h
    cases cd with
    | none => unfold connectStep; simp
    | some hdl => unfold connectStep; simp [hdec]

theorem connectToDatabase_cached (fuel : Nat) (env : ConnEnv) (st : ConnState)
    (h : Nat) (h1 : st.cachedDb = some h) (h2 : st.readyState = 1) :
    connectToDatabase fuel env st = (AcquireResult.ok h, st) := by
  cases fuel with
  | zero => exact connectStep_cached env st _ h h1 h2
  | succ f => exact connectStep_cached env st _ h h1 h2

theorem connectToDatabase_attempt (fuel : Nat) (env : ConnEnv) (st : ConnState)
    (hflag : st.isConnecting = false)
    (hmiss : st.cachedDb = none ∨ st.readyState ≠ 1) :
    connectToDatabase fuel env st =
      if env.connectOk then
        (AcquireResult.ok env.newHandle,
         { cachedDb := some env.newHandle, isConnecting := false, readyState := 1 })
      else
        (AcquireResult.err,
         { cachedDb := none, isConnecting := false, readyState := 0 }) := by
  cases fuel with
  | zero => exact connectStep_attempt env st _ hflag hmiss
  | succ f => exact connectStep_attempt env st _ hflag hmiss

theorem setProc_lt (s : Sys) (i : Nat) (p : ProcPhase) (h : i < s.procs.length) :
    (setProc s i p).procs[i]? = some p := by
  simp [setProc, List.getElem?_set_eq_of_lt p h]

theorem setProc_ne (s : Sys) (i j : Nat) (p : ProcPhase) (h : i ≠ j) :
    (setProc s i p).procs[j]? = s.procs[j]? := by
  simp [setProc, List.getElem?_set_ne h]

theorem connecting_of_set {l : List ProcPhase} {i k : Nat} {p : ProcPhase}
    (hp : p ≠ ProcPhase.connecting)
    (hk : (l.set i p)[k]? = some ProcPhase.connecting) :
    l[k]? = some ProcPhase.connecting := by
  rw [List.getElem?_set] at hk
  split at hk
  · split at hk
    · exact absurd (Option.some.inj hk) hp
    · simp at hk
  · exact hk

theorem guardInv_coldStart (n : Nat) : GuardInv (coldStart n) := by
  constructor
  · intro _ i
    simp [coldStart, List.getElem?_replicate]
  · intro i j hi hj
    simp [coldStart, List.getElem?_replicate] at hi

theorem guardInv_step {s s' : Sys} (hinv : GuardInv s) (hstep : SysStep s s') :
    GuardInv s' := by
  obtain ⟨h1, h2⟩ := hinv
  cases hstep with
  | enterCached i hi hc =>
      refine ⟨fun hf k hk => ?_, fun k l hk hl => ?_⟩
      · exact h1 hf k (connecting_of_set (by simp) hk)
      · exact h2 k l (connecting_of_set (by simp) hk) (connecting_of_set (by simp) hl)
  | enterWait i hi hc hfl =>
      refine ⟨fun hf k hk => ?_, fun k l hk hl => ?_⟩
      · exact h1 hf k (connecting_of_set (by simp) hk)
      · exact h2 k l (connecting_of_set (by simp) hk) (connecting_of_set (by simp) hl)
  | enterConnect i hi hc hfl =>
      refine ⟨fun hf k hk => ?_, fun k l hk hl => ?_⟩
      · simp at hf
      · have hknew : k = i := by
          by_contra hne
          have hks : s.procs[k]? = some ProcPhase.connecting := by
            rw [setProc_ne s i k _ (fun e => hne e.symm)] at hk
            exact hk
          exact h1 hfl k hks
        have hlnew : l = i := by
          by_contra hne
          have hls : s.procs[l]? = some ProcPhase.connecting := by
            rw [setProc_ne s i l _ (fun e => hne e.symm)] at hl
            exact hl
          exact h1 hfl l hls
        rw [hknew, hlnew]
  | wake i hi =>
      refine ⟨fun hf k hk => ?_, fun k l hk hl => ?_⟩
      · exact h1 hf k (connecting_of_set (by simp) hk)
      · exact h2 k l (connecting_of_set (by simp) hk) (connecting_of_set (by simp) hl)
  | resolve i ok hi =>
      have hnone : ∀ k : Nat,
          (s.procs.set i (ProcPhase.done ok))[k]? ≠ some ProcPhase.connecting := by
        intro k hk
        have hold : s.procs[k]? = some ProcPhase.connecting :=
          connecting_of_set (by simp) hk
        have hki : k = i := h2 k i hold hi
        subst hki
        rw [List.getElem?_set] at hk
        simp [(List.getElem?_eq_some.mp hi).1] at hk
      refine ⟨fun _ k => hnone k, fun k l hk hl => absurd hk (hnone k)⟩

theorem guardInv_reachable (n : Nat) (s : Sys)
    (h : SysReachable (coldStart n) s) : GuardInv s := by
  induction h with
  | refl => exact guardInv_coldStart n
  | tail _ hstep ih => exact guardInv_step ih hstep

theorem flagLiveInv_step {s s' : Sys} (hinv : FlagLiveInv s) (hstep : SysStep s s') :
    FlagLiveInv s' := by
  cases hstep with
  | enterCached i hi hc =>
      intro hf
      obtain ⟨j, hj⟩ := hinv hf
      have hij : i ≠ j := by
        intro e
        subst e
        rw [hi] at hj
        cases hj
      exact ⟨j, by rw [setProc_ne s i j _ hij]; exact hj⟩
  | enterWait i hi hc hfl =>
      intro hf
      obtain ⟨j, hj⟩ := hinv hf
      have hij : i ≠ j := by
        intro e
        subst e
        rw [hi] at hj
        cases hj
      exact ⟨j, by rw [setProc_ne s i j _ hij]; exact hj⟩
  | enterConnect i hi hc hfl =>
      intro _
      exact ⟨i, setProc_lt s i _ (List.getElem?_eq_some.mp hi).1⟩
  | wake i hi =>
      intro hf
      obtain ⟨j, hj⟩ := hinv hf
      have hij : i ≠ j := by
        intro e
        subst e
        rw [hi] at hj
        cases hj
      exact ⟨j, by rw [setProc_ne s i j _ hij]; exact hj⟩
  | resolve i ok hi =>
      intro hf
      simp at hf

theorem flagLiveInv_reachable (n : Nat) (s : Sys)
    (h : SysReachable (coldStart n) s) : FlagLiveInv s := by
  induction h with
  | refl => intro hf; simp [coldStart] at hf
  | tail _ hstep ih => exact flagLiveInv_step ih hstep

/-! ## Connection manager claims -/

/-- Claim C8: a healthy cached handle is returned immediately with the
state untouched; a failed attempt clears the cache and the guard flag
and surfaces the error to the caller, with no retry; a successful
attempt caches the handle, and the pool size of the connect options is
fixed at 1. -/
theorem c8_acquire_contract :
    (∀ (fuel : Nat) (env : ConnEnv) (st : ConnState) (h : Nat),
      st.cachedDb = some h → st.readyState = 1 →
      connectToDatabase fuel env st = (AcquireResult.ok h, st)) ∧
    (∀ (fuel : Nat) (env : ConnEnv) (st : ConnState),
      st.isConnecting = false → (st.cachedDb = none ∨ st.readyState ≠ 1) →
      env.connectOk = false →
      connectToDatabase fuel env st =
        (AcquireResult.err,
         { cachedDb := none, isConnecting := false, readyState := 0 })) ∧
    (∀ (fuel : Nat) (env : ConnEnv) (st : ConnState),
      st.isConnecting = false → (st.cachedDb = none ∨ st.readyState ≠ 1) →
      env.connectOk = true →
      connectToDatabase fuel env st =
        (AcquireResult.ok env.newHandle,
         { cachedDb := some env.newHandle, isConnecting := false,
           readyState := 1 })) ∧
    mongooseConnectOptions.maxPoolSize = 1 := by
  refine ⟨connectToDatabase_cached, ?_, ?_, rfl⟩
  · intro fuel env st hflag hmiss hko
    rw [connectToDatabase_attempt fuel env st hflag hmiss, hko]
    rfl
  · intro fuel env st hflag hmiss hok
    rw [connectToDatabase_attempt fuel env st hflag hmiss, hok]
    rfl

/-- Witness for C8 on the three concrete paths. -/
theorem c8_acquire_contract_witness :
    connectToDatabase 0 ⟨true, 5⟩ ⟨some 9, false, 1⟩ =
      (AcquireResult.ok 9, ⟨some 9, false, 1⟩) ∧
    connectToDatabase 0 ⟨false, 5⟩ ⟨none, false, 0⟩ =
      (AcquireResult.err, ⟨none, false, 0⟩) ∧
    connectToDatabase 0 ⟨true, 5⟩ ⟨none, false, 0⟩ =
      (AcquireResult.ok 5, ⟨some 5, false, 1⟩) :=
  ⟨c8_acquire_contract.1 0 ⟨true, 5⟩ ⟨some 9, false, 1⟩ 9 rfl rfl,
   c8_acquire_contract.2.1 0 ⟨false, 5⟩ ⟨none, false, 0⟩ rfl (Or.inl rfl) rfl,
   c8_acquire_contract.2.2.1 0 ⟨true, 5⟩ ⟨none, false, 0⟩ rfl (Or.inl rfl) rfl⟩

/-- Claim C7: at most one underlying connection attempt is ever in
flight — reachable states of concurrent acquirers satisfy the guard
invariant — waiters poll at the fixed 100 ms interval, and once the
attempt has resolved successfully a waiting caller completes within two
of its own steps. -/
theorem c7_single_inflight_attempt :
    pollIntervalMs = 100 ∧
    (∀ (n : Nat) (s : Sys), SysReachable (coldStart n) s → GuardInv s) ∧
    (∀ (s : Sys) (i : Nat), s.cached = true →
      s.procs[i]? = some ProcPhase.waiting →
      ∃ s' s'' : Sys, SysStep s s' ∧ SysStep s' s'' ∧
        s''.procs[i]? = some (ProcPhase.done true)) := by
  refine ⟨rfl, guardInv_reachable, ?_⟩
  intro s i hc hw
  have hlen : i < s.procs.length := (List.getElem?_eq_some.mp hw).1
  refine ⟨setProc s i ProcPhase.start,
    setProc (setProc s i ProcPhase.start) i (ProcPhase.done true),
    SysStep.wake s i hw, ?_, ?_⟩
  · exact SysStep.enterCached (setProc s i ProcPhase.start) i
      (setProc_lt s i ProcPhase.start hlen) hc
  · refine setProc_lt _ i _ ?_
    simpa [setProc] using hlen

/-- Witness for C7: the invariant at a reachable state and the two-step
completion of a concrete waiting caller. -/
theorem c7_single_inflight_attempt_witness :
    GuardInv (coldStart 2) ∧
    (∃ s' s'' : Sys,
      SysStep ⟨[ProcPhase.waiting], true, false⟩ s' ∧ SysStep s' s'' ∧
      s''.procs[0]? = some (ProcPhase.done true)) :=
  ⟨c7_single_inflight_attempt.2.1 2 (coldStart 2) Relation.ReflTransGen.refl,
   c7_single_inflight_attempt.2.2 ⟨[ProcPhase.waiting], true, false⟩ 0 rfl rfl⟩

/-- Claim C10: a run of `connectToDatabase` that starts with the guard
flag down ends with the guard flag down and never starves, on the
cached, success and failure paths alike; and in the concurrent model
the flag is only ever up while an attempt is in flight, so after every
in-flight attempt has resolved the flag is down. -/
theorem c10_guard_flag_cleared :
    (∀ (fuel : Nat) (env : ConnEnv) (st : ConnState), st.isConnecting = false →
      (connectToDatabase fuel env st).2.isConnecting = false ∧
      (connectToDatabase fuel env st).1 ≠ AcquireResult.starved) ∧
    (∀ (n : Nat) (s : Sys), SysReachable (coldStart n) s → FlagLiveInv s) := by
  refine ⟨?_, flagLiveInv_reachable⟩
  intro fuel env st hflag
  rcases hcd : st.cachedDb with _ | h
  · rw [connectToDatabase_attempt fuel env st hflag (Or.inl hcd)]
    cases henv : env.connectOk <;> simp
  · by_cases hrs : st.readyState = 1
    · rw [connectToDatabase_cached fuel env st h hcd hrs]
      exact ⟨hflag, by simp⟩
    · rw [connectToDatabase_attempt fuel env st hflag (Or.inr hrs)]
      cases henv : env.connectOk <;> simp

/-- Witness for C10 on a concrete run and a concrete reachable state. -/
theorem c10_guard_flag_cleared_witness :
    (connectToDatabase 3 ⟨true, 42⟩ ⟨none, false, 0⟩).2.isConnecting = false ∧
    FlagLiveInv (coldStart 1) :=
  ⟨(c10_guard_flag_cleared.1 3 ⟨true, 42⟩ ⟨none, false, 0⟩ rfl).1,
   c10_guard_flag_cleared.2 1 (coldStart 1) Relation.ReflTransGen.refl⟩

end TrackingPixel
